import Mathlib

/-!
Shallow embedding of the GameTank Breakout gameplay core
(`src/cpp/breakout/breakout.cpp` together with the constants of
`src/cpp/breakout/gametank.h`).

Machine integers are modelled explicitly: `uint8_t` values are `Nat`
reduced modulo 256 at every store that can overflow, `int8_t` values are
`Int` wrapped into `[-128, 127]` at every store, and `uint16_t` (the
score) is `Nat` reduced modulo 65536.  All game-state mutation of the C
code is expressed as explicit state passing over the `GameState`
structure; the drawing and hardware-register code has no effect on the
game state and is modelled only where a claim needs it (the HUD
life-rectangle loop).
-/

set_option maxRecDepth 200000

set_option maxHeartbeats 1000000

namespace Breakout

/-- Constants from gametank.h. -/
def SCREEN_WIDTH : Nat := 128

/-- Screen height in pixels. -/
def SCREEN_HEIGHT : Nat := 128

/-- Button mask for the RIGHT d-pad direction. -/
def BTN_RIGHT : Nat := 0x01

/-- Button mask for the LEFT d-pad direction. -/
def BTN_LEFT : Nat := 0x02

/-- Button mask for the A (launch) button. -/
def BTN_A : Nat := 0x10

/-- Constants from breakout.cpp. -/
def PADDLE_WIDTH : Nat := 24

/-- Paddle height in pixels. -/
def PADDLE_HEIGHT : Nat := 4

/-- Fixed paddle top y coordinate. -/
def PADDLE_Y : Nat := 115

/-- Paddle horizontal speed per frame. -/
def PADDLE_SPEED : Nat := 2

/-- Ball square side length. -/
def BALL_SIZE : Nat := 3

/-- Launch speed, x component. -/
def BALL_SPEED_X : Nat := 2

/-- Launch speed, y component (applied with negative sign at launch). -/
def BALL_SPEED_Y : Nat := 2

/-- Brick width in pixels. -/
def BRICK_WIDTH : Nat := 15

/-- Brick height in pixels. -/
def BRICK_HEIGHT : Nat := 6

/-- Number of brick rows. -/
def BRICK_ROWS : Nat := 6

/-- Number of brick columns. -/
def BRICK_COLS : Nat := 8

/-- Grid x origin. -/
def BRICK_START_X : Nat := 4

/-- Grid y origin. -/
def BRICK_START_Y : Nat := 10

/-- Horizontal spacing between brick columns. -/
def BRICK_SPACING_X : Nat := 16

/-- Vertical spacing between brick rows. -/
def BRICK_SPACING_Y : Nat := 7

/-- Total brick count (BRICK_ROWS * BRICK_COLS). -/
def TOTAL_BRICKS : Nat := BRICK_ROWS * BRICK_COLS

/-- Wrap an integer to the signed 8-bit range, the effect of storing
into an `int8_t`. -/
def toInt8 (n : Int) : Int := (n + 128) % 256 - 128

/-- Wrap an integer to the unsigned 8-bit range, the effect of storing
into a `uint8_t`.  `Int.emod` is nonnegative for a positive modulus, so
the `toNat` loses nothing. -/
def u8 (n : Int) : Nat := (n % 256).toNat

/-- One brick record: struct Brick of breakout.cpp (x, y, color,
active), with the 0/1 `uint8_t` active flag modelled as `Bool`. -/
structure Brick where
  x : Nat
  y : Nat
  color : Nat
  active : Bool
deriving DecidableEq, Repr

/-- The mutable game state of breakout.cpp: every global variable the
gameplay core reads or writes. -/
structure GameState where
  paddle_x : Nat
  ball_x : Nat
  ball_y : Nat
  ball_vx : Int
  ball_vy : Int
  ball_state : Nat
  input_buffer : Nat
  prev_input : Nat
  score : Nat
  lives : Nat
  bricks_left : Nat
  bricks : List Brick
  frame_count : Nat
deriving DecidableEq, Repr

/-- Brick construction of init_bricks for one grid index: col = idx & 7,
row = idx / 8, x = (col << 4) + BRICK_START_X, y = row * 7 +
BRICK_START_Y, color = row + 1, active = 1. -/
def mkBrick (idx : Nat) : Brick :=
  { x := ((idx &&& 0x07) <<< 4) + BRICK_START_X
    y := (idx / 8) * 7 + BRICK_START_Y
    color := idx / 8 + 1
    active := true }

/-- The brick array produced by init_bricks: one brick per grid index
0..TOTAL_BRICKS-1.  The loop also counts bricks_left up to
TOTAL_BRICKS. -/
def initBricksList : List Brick := (List.range TOTAL_BRICKS).map mkBrick

/-- init_game of breakout.cpp (including its call to init_bricks). -/
def init_game : GameState :=
  { paddle_x := (SCREEN_WIDTH - PADDLE_WIDTH) / 2
    ball_state := 0
    ball_vx := 0
    ball_vy := 0
    ball_x := (SCREEN_WIDTH - BALL_SIZE) / 2
    ball_y := PADDLE_Y - BALL_SIZE - 1
    score := 0
    lives := 3
    frame_count := 0
    input_buffer := 0
    prev_input := 0
    bricks := initBricksList
    bricks_left := TOTAL_BRICKS }

/-- read_input of breakout.cpp: the previous buffer is saved and the new
gamepad byte is inverted (buttons are active-low). -/
def read_input (s : GameState) (raw : Nat) : GameState :=
  { s with prev_input := s.input_buffer, input_buffer := (raw % 256) ^^^ 0xFF }

/-- Paddle movement on the paddle x coordinate, from update_paddle:
RIGHT is evaluated first (the proposed new position is committed only if
strictly below SCREEN_WIDTH - PADDLE_WIDTH), then LEFT (only if the
position is at least PADDLE_SPEED). -/
def paddle_step (input x : Nat) : Nat :=
  let x1 := if input &&& BTN_RIGHT ≠ 0 then
      (let new_x := (x + PADDLE_SPEED) % 256
       if new_x < SCREEN_WIDTH - PADDLE_WIDTH then new_x else x)
    else x
  if input &&& BTN_LEFT ≠ 0 then
    (if PADDLE_SPEED ≤ x1 then x1 - PADDLE_SPEED else x1)
  else x1

/-- update_paddle of breakout.cpp: it mutates only paddle_x. -/
def update_paddle (s : GameState) : GameState :=
  { s with paddle_x := paddle_step s.input_buffer s.paddle_x }

/-- The on-paddle branch of update_ball: the ball is slaved to the
paddle centre, and a rising edge of the A button launches it with
velocity (BALL_SPEED_X, -BALL_SPEED_Y). -/
def ballOnPaddle (s : GameState) : GameState :=
  let s1 := { s with ball_x := (s.paddle_x + (PADDLE_WIDTH - BALL_SIZE) / 2) % 256 }
  if s1.input_buffer &&& BTN_A ≠ 0 ∧ s1.prev_input &&& BTN_A = 0 then
    { s1 with ball_state := 1
              ball_vx := (BALL_SPEED_X : Int)
              ball_vy := -(BALL_SPEED_Y : Int) }
  else s1

/-- Horizontal wall handling of update_ball on the already-integrated
(wrapped) x: the left branch fires on x == 0, else the right branch on
x + BALL_SIZE >= SCREEN_WIDTH; both negate vx. -/
def wallX (x : Nat) (vx : Int) : Nat × Int :=
  if x = 0 then (1, toInt8 (-vx))
  else if SCREEN_WIDTH ≤ x + BALL_SIZE then
    (SCREEN_WIDTH - BALL_SIZE - 1, toInt8 (-vx))
  else (x, vx)

/-- Paddle collision step of update_ball: tested only when ball_y is in
the band [PADDLE_Y - BALL_SIZE, PADDLE_Y + PADDLE_HEIGHT) and the x
ranges overlap; the response additionally requires ball_y < PADDLE_Y. -/
def paddlePhase (s : GameState) : GameState :=
  if PADDLE_Y - BALL_SIZE ≤ s.ball_y ∧ s.ball_y < PADDLE_Y + PADDLE_HEIGHT then
    if s.ball_x + BALL_SIZE > s.paddle_x ∧ s.paddle_x + PADDLE_WIDTH > s.ball_x then
      if s.ball_y < PADDLE_Y then
        { s with ball_y := PADDLE_Y - BALL_SIZE - 1
                 ball_vy := if s.ball_vy > 0 then toInt8 (-s.ball_vy) else s.ball_vy
                 ball_vx := if s.ball_vx = 0 then (BALL_SPEED_X : Int) else s.ball_vx }
      else s
    else s
  else s

/-- Hit test of the brick-scan loop body: the brick is active and the
ball and brick rectangles overlap on both axes (the negation of the two
continue conditions). -/
def hitTest (bx by1 : Nat) (b : Brick) : Bool :=
  b.active && decide (bx + BALL_SIZE > b.x) && decide (b.x + BRICK_WIDTH > bx)
    && decide (by1 + BALL_SIZE > b.y) && decide (b.y + BRICK_HEIGHT > by1)

/-- The brick-scan loop of update_ball: walk the bricks in index order;
at the first hit, deactivate that brick and stop.  Returns none when no
brick is hit. -/
def scanBricks (bx by1 : Nat) : List Brick → Option (List Brick)
  | [] => none
  | b :: rest =>
    if hitTest bx by1 b then some ({ b with active := false } :: rest)
    else (scanBricks bx by1 rest).map (b :: ·)

/-- Effects of a brick hit: the scanned brick list replaces the old one
and vy, score and bricks_left are updated; with no hit nothing
changes. -/
def brickScanApply (s : GameState) : GameState :=
  match scanBricks s.ball_x s.ball_y s.bricks with
  | none => s
  | some l =>
    { s with bricks := l
             ball_vy := toInt8 (-s.ball_vy)
             score := (s.score + 1) % 65536
             bricks_left := (s.bricks_left + 255) % 256 }

/-- Brick-collision phase of update_ball, with the vertical pre-filter:
the scan runs only when ball_y is inside the vertical span of the brick
grid. -/
def brickPhase (s : GameState) : GameState :=
  if s.ball_y < BRICK_START_Y ∨
      BRICK_START_Y + BRICK_ROWS * BRICK_SPACING_Y + BRICK_HEIGHT ≤ s.ball_y then s
  else brickScanApply s

/-- update_ball of breakout.cpp.  The on-paddle branch returns early;
otherwise the position is integrated with uint8 wraparound, the x walls
are handled, then either the top clamp, the bottom-loss early return, or
the fall-through into the paddle and brick phases. -/
def update_ball (s : GameState) : GameState :=
  if s.ball_state = 0 then ballOnPaddle s
  else
    let bx1 := u8 ((s.ball_x : Int) + s.ball_vx)
    let by1 := u8 ((s.ball_y : Int) + s.ball_vy)
    let w := wallX bx1 s.ball_vx
    let s1 := { s with ball_x := w.1, ball_vx := w.2, ball_y := by1 }
    if by1 < 8 then
      brickPhase (paddlePhase { s1 with ball_y := 8, ball_vy := toInt8 (-s1.ball_vy) })
    else if SCREEN_HEIGHT - 2 ≤ by1 then
      { s1 with lives := (s1.lives + 255) % 256
                ball_state := 0
                ball_x := (SCREEN_WIDTH - BALL_SIZE) / 2
                ball_y := PADDLE_Y - BALL_SIZE - 1
                ball_vx := 0
                ball_vy := 0 }
    else brickPhase (paddlePhase s1)

/-- update_game of breakout.cpp: paddle first, then ball. -/
def update_game (s : GameState) : GameState := update_ball (update_paddle s)

/-- One iteration of the main loop as far as the game state is
concerned: read input, run the game logic, increment the frame counter.
Drawing and the vsync wait do not touch the game state. -/
def frameStep (s : GameState) (raw : Nat) : GameState :=
  let s2 := update_game (read_input s raw)
  { s2 with frame_count := (s2.frame_count + 1) % 256 }

/-- Body of the draw_hud loop: count iterations remaining and the
uint8 x_pos accumulator, which wraps mod 256 at every x_pos += 5. -/
def hudLoop : Nat → Nat → List (Nat × Nat × Nat × Nat)
  | 0, _ => []
  | n + 1, x_pos => (x_pos, 2, 3, 3) :: hudLoop n ((x_pos + 5) % 256)

/-- The draw_hud loop: one small rectangle per unit of the lives
counter, at uint8 x positions 2, 7, 12, ... wrapping mod 256 (from the
52nd rectangle on the stored x_pos has wrapped). -/
def hudLifeRects (lives : Nat) : List (Nat × Nat × Nat × Nat) :=
  hudLoop lives 2

/-- The HUD loop emits exactly one rectangle per counted life,
whatever the x accumulator holds. -/
theorem hudLoop_length (n : Nat) : ∀ x : Nat, (hudLoop n x).length = n := by
  induction n with
  | zero => intro x; rfl
  | succ n ih =>
    intro x
    show (hudLoop n ((x + 5) % 256)).length + 1 = n + 1
    rw [ih ((x + 5) % 256)]

/-- Number of bricks whose active flag is set. -/
def countActive (l : List Brick) : Nat := l.countP (fun b => b.active)

/-- States reachable by the frame loop from power-on initialization. -/
inductive Reachable : GameState → Prop
  | init : Reachable init_game
  | step (s : GameState) (raw : Nat) : Reachable s → Reachable (frameStep s raw)

/-- Modelled from the spec: the comparison variant of the ball update
that always scans all bricks, i.e. update_ball with the vertical
pre-filter of the brick-collision phase removed and everything else
unchanged.  This definition exists only to state the refinement claim
about the pre-filter. -/
def update_ball_nofilter (s : GameState) : GameState :=
  if s.ball_state = 0 then ballOnPaddle s
  else
    let bx1 := u8 ((s.ball_x : Int) + s.ball_vx)
    let by1 := u8 ((s.ball_y : Int) + s.ball_vy)
    let w := wallX bx1 s.ball_vx
    let s1 := { s with ball_x := w.1, ball_vx := w.2, ball_y := by1 }
    if by1 < 8 then
      brickScanApply (paddlePhase { s1 with ball_y := 8, ball_vy := toInt8 (-s1.ball_vy) })
    else if SCREEN_HEIGHT - 2 ≤ by1 then
      { s1 with lives := (s1.lives + 255) % 256
                ball_state := 0
                ball_x := (SCREEN_WIDTH - BALL_SIZE) / 2
                ball_y := PADDLE_Y - BALL_SIZE - 1
                ball_vx := 0
                ball_vy := 0 }
    else brickScanApply (paddlePhase s1)

/-- Folding the frame loop over any input list keeps the state
reachable. -/
theorem reachable_foldl (l : List Nat) (s : GameState) (h : Reachable s) :
    Reachable (List.foldl frameStep s l) := by
  induction l generalizing s with
  | nil => exact h
  | cons a l ih => exact ih (frameStep s a) (Reachable.step s a h)

/-! Field-preservation lemmas for the individual phases. -/

theorem paddlePhase_bricks (t : GameState) : (paddlePhase t).bricks = t.bricks := by
  unfold paddlePhase; split_ifs <;> rfl

theorem paddlePhase_bricks_left (t : GameState) :
    (paddlePhase t).bricks_left = t.bricks_left := by
  unfold paddlePhase; split_ifs <;> rfl

theorem paddlePhase_score (t : GameState) : (paddlePhase t).score = t.score := by
  unfold paddlePhase; split_ifs <;> rfl

theorem paddlePhase_lives (t : GameState) : (paddlePhase t).lives = t.lives := by
  unfold paddlePhase; split_ifs <;> rfl

theorem paddlePhase_paddle_x (t : GameState) : (paddlePhase t).paddle_x = t.paddle_x := by
  unfold paddlePhase; split_ifs <;> rfl

theorem paddlePhase_ball_x (t : GameState) : (paddlePhase t).ball_x = t.ball_x := by
  unfold paddlePhase; split_ifs <;> rfl

theorem paddlePhase_ball_state (t : GameState) :
    (paddlePhase t).ball_state = t.ball_state := by
  unfold paddlePhase; split_ifs <;> rfl

theorem paddlePhase_ball_vx (t : GameState) (h : t.ball_vx ≠ 0) :
    (paddlePhase t).ball_vx = t.ball_vx := by
  unfold paddlePhase; split_ifs <;> simp [h]

theorem brickScanApply_ball_x (t : GameState) : (brickScanApply t).ball_x = t.ball_x := by
  unfold brickScanApply; split <;> rfl

theorem brickScanApply_ball_y (t : GameState) : (brickScanApply t).ball_y = t.ball_y := by
  unfold brickScanApply; split <;> rfl

theorem brickScanApply_ball_vx (t : GameState) :
    (brickScanApply t).ball_vx = t.ball_vx := by
  unfold brickScanApply; split <;> rfl

theorem brickScanApply_ball_state (t : GameState) :
    (brickScanApply t).ball_state = t.ball_state := by
  unfold brickScanApply; split <;> rfl

theorem brickScanApply_paddle_x (t : GameState) :
    (brickScanApply t).paddle_x = t.paddle_x := by
  unfold brickScanApply; split <;> rfl

theorem brickScanApply_lives (t : GameState) : (brickScanApply t).lives = t.lives := by
  unfold brickScanApply; split <;> rfl

theorem brickPhase_ball_x (t : GameState) : (brickPhase t).ball_x = t.ball_x := by
  unfold brickPhase; split_ifs with h
  · rfl
  · exact brickScanApply_ball_x t

theorem brickPhase_ball_vx (t : GameState) : (brickPhase t).ball_vx = t.ball_vx := by
  unfold brickPhase; split_ifs with h
  · rfl
  · exact brickScanApply_ball_vx t

theorem brickPhase_ball_state (t : GameState) :
    (brickPhase t).ball_state = t.ball_state := by
  unfold brickPhase; split_ifs with h
  · rfl
  · exact brickScanApply_ball_state t

theorem brickPhase_paddle_x (t : GameState) : (brickPhase t).paddle_x = t.paddle_x := by
  unfold brickPhase; split_ifs with h
  · rfl
  · exact brickScanApply_paddle_x t

theorem brickPhase_lives (t : GameState) : (brickPhase t).lives = t.lives := by
  unfold brickPhase; split_ifs with h
  · rfl
  · exact brickScanApply_lives t

theorem ballOnPaddle_paddle_x (t : GameState) :
    (ballOnPaddle t).paddle_x = t.paddle_x := by
  unfold ballOnPaddle; dsimp only; split_ifs <;> rfl

/-- update_ball never moves the paddle. -/
theorem update_ball_paddle_x (s : GameState) :
    (update_ball s).paddle_x = s.paddle_x := by
  unfold update_ball
  dsimp only
  split_ifs with h1 h2 h3
  · exact ballOnPaddle_paddle_x s
  · rw [brickPhase_paddle_x, paddlePhase_paddle_x]
  · rfl
  · rw [brickPhase_paddle_x, paddlePhase_paddle_x]

/-- The paddle position after a full frame is paddle_step applied to
the sampled input byte. -/
theorem frameStep_paddle_x (s : GameState) (raw : Nat) :
    (frameStep s raw).paddle_x = paddle_step ((raw % 256) ^^^ 0xFF) s.paddle_x := by
  show (update_game (read_input s raw)).paddle_x = _
  unfold update_game
  rw [update_ball_paddle_x]
  rfl

/-- The bottom-loss branch of update_ball: when the integrated y is at
or past SCREEN_HEIGHT - 2, the frame ends with lives decremented
(mod 256), the ball back OnPaddle at the launch default with zero
velocity, and everything else untouched. -/
theorem update_ball_loss (s : GameState) (hA : s.ball_state = 1)
    (hloss : SCREEN_HEIGHT - 2 ≤ u8 ((s.ball_y : Int) + s.ball_vy)) :
    update_ball s =
      { s with lives := (s.lives + 255) % 256
               ball_state := 0
               ball_x := (SCREEN_WIDTH - BALL_SIZE) / 2
               ball_y := PADDLE_Y - BALL_SIZE - 1
               ball_vx := 0
               ball_vy := 0 } := by
  have h126 : (126 : Nat) ≤ u8 ((s.ball_y : Int) + s.ball_vy) := hloss
  have h0 : ¬ s.ball_state = 0 := by omega
  have h8 : ¬ (u8 ((s.ball_y : Int) + s.ball_vy) < 8) := by omega
  unfold update_ball
  dsimp only
  rw [if_neg h0, if_neg h8, if_pos hloss]

/-- C3: in an Active frame whose integrated y reaches the near-bottom
threshold SCREEN_HEIGHT - 2, the update decrements lives by one (as a
uint8), returns the ball OnPaddle at the fixed launch position
((SCREEN_WIDTH - BALL_SIZE)/2, PADDLE_Y - BALL_SIZE - 1) with both
velocity components zeroed whatever their signs were, and leaves score,
bricks and the active-brick counter untouched: no paddle or brick
processing happens that frame. -/
theorem bottom_loss_resets (s : GameState) (hA : s.ball_state = 1)
    (hlv : s.lives < 256)
    (hloss : SCREEN_HEIGHT - 2 ≤ u8 ((s.ball_y : Int) + s.ball_vy)) :
    update_ball s =
      { s with lives := (s.lives + 255) % 256
               ball_state := 0
               ball_x := (SCREEN_WIDTH - BALL_SIZE) / 2
               ball_y := PADDLE_Y - BALL_SIZE - 1
               ball_vx := 0
               ball_vy := 0 } ∧
    (0 < s.lives → (update_ball s).lives = s.lives - 1) := by
  have h := update_ball_loss s hA hloss
  refine ⟨h, fun hp => ?_⟩
  rw [h]
  show (s.lives + 255) % 256 = s.lives - 1
  omega

/-- Concrete bottom-loss state used by the C3 witness. -/
def c3w : GameState :=
  { init_game with ball_state := 1, ball_x := 50, ball_y := 125, ball_vx := 2, ball_vy := 2 }

/-- Witness for C3 at a concrete state: the ball at y = 125 moving down
integrates to 127 ≥ 126 and the loss branch fires. -/
theorem bottom_loss_resets_witness :
    c3w.ball_state = 1 ∧ c3w.lives < 256 ∧
    SCREEN_HEIGHT - 2 ≤ u8 ((c3w.ball_y : Int) + c3w.ball_vy) ∧
    (update_ball c3w =
      { c3w with lives := (c3w.lives + 255) % 256
                 ball_state := 0
                 ball_x := (SCREEN_WIDTH - BALL_SIZE) / 2
                 ball_y := PADDLE_Y - BALL_SIZE - 1
                 ball_vx := 0
                 ball_vy := 0 } ∧
     (0 < c3w.lives → (update_ball c3w).lives = c3w.lives - 1)) :=
  ⟨by decide, by decide, by decide,
    bottom_loss_resets c3w (by decide) (by decide) (by decide)⟩

/-- C10: the lives counter is a uint8 decremented with no guard, so a
bottom loss with lives = 0 wraps it to 255, the simulation continues
normally (the ball is simply put back OnPaddle), and the HUD loop then
emits one life rectangle per unit of the wrapped value, 255 of them. -/
theorem lives_underflow_wraps (s : GameState) (hA : s.ball_state = 1)
    (h0 : s.lives = 0)
    (hloss : SCREEN_HEIGHT - 2 ≤ u8 ((s.ball_y : Int) + s.ball_vy)) :
    (update_ball s).lives = 255 ∧ (update_ball s).ball_state = 0 ∧
    (hudLifeRects (update_ball s).lives).length = 255 := by
  have h := update_ball_loss s hA hloss
  rw [h]
  refine ⟨?_, rfl, ?_⟩
  · show (s.lives + 255) % 256 = 255
    omega
  · show (hudLifeRects ((s.lives + 255) % 256)).length = 255
    have h255 : (s.lives + 255) % 256 = 255 := by omega
    rw [h255]
    exact hudLoop_length 255 2

/-- Concrete zero-lives bottom-loss state used by the C10 witness. -/
def c10w : GameState :=
  { init_game with ball_state := 1, lives := 0, ball_x := 50, ball_y := 125,
                   ball_vx := 2, ball_vy := 2 }

/-- Witness for C10 at a concrete state with lives already 0. -/
theorem lives_underflow_wraps_witness :
    c10w.ball_state = 1 ∧ c10w.lives = 0 ∧
    SCREEN_HEIGHT - 2 ≤ u8 ((c10w.ball_y : Int) + c10w.ball_vy) ∧
    ((update_ball c10w).lives = 255 ∧ (update_ball c10w).ball_state = 0 ∧
     (hudLifeRects (update_ball c10w).lives).length = 255) :=
  ⟨by decide, by decide, by decide,
    lives_underflow_wraps c10w (by decide) (by decide) (by decide)⟩

/-- C4: with the ball OnPaddle, the frame moves it to Active exactly
when the A button is down in this frame's sampled input and was not
down in the previous frame's input (the rising edge); on that
transition the velocity becomes (BALL_SPEED_X, -BALL_SPEED_Y) = (2, -2).
Holding A across frames launches once, because after the launch the
state is Active, and the reverse direction of the equivalence shows no
other event makes the ball Active. -/
theorem launch_rising_edge (s : GameState) (raw : Nat) (h0 : s.ball_state = 0) :
    ((frameStep s raw).ball_state = 1 ↔
      ((raw % 256) ^^^ 0xFF) &&& BTN_A ≠ 0 ∧ s.input_buffer &&& BTN_A = 0) ∧
    ((frameStep s raw).ball_state = 1 →
      (frameStep s raw).ball_vx = (BALL_SPEED_X : Int) ∧
      (frameStep s raw).ball_vy = -(BALL_SPEED_Y : Int)) := by
  have hb : (update_paddle (read_input s raw)).ball_state = 0 := h0
  by_cases hc : ((raw % 256) ^^^ 0xFF) &&& BTN_A ≠ 0 ∧ s.input_buffer &&& BTN_A = 0
  · have hc2 : (update_paddle (read_input s raw)).input_buffer &&& BTN_A ≠ 0 ∧
        (update_paddle (read_input s raw)).prev_input &&& BTN_A = 0 := hc
    constructor
    · refine ⟨fun _ => hc, fun _ => ?_⟩
      show (update_ball (update_paddle (read_input s raw))).ball_state = 1
      unfold update_ball
      rw [if_pos hb]
      unfold ballOnPaddle
      dsimp only
      rw [if_pos hc2]
    · intro _
      constructor
      · show (update_ball (update_paddle (read_input s raw))).ball_vx = _
        unfold update_ball
        rw [if_pos hb]
        unfold ballOnPaddle
        dsimp only
        rw [if_pos hc2]
      · show (update_ball (update_paddle (read_input s raw))).ball_vy = _
        unfold update_ball
        rw [if_pos hb]
        unfold ballOnPaddle
        dsimp only
        rw [if_pos hc2]
  · have hc2 : ¬ ((update_paddle (read_input s raw)).input_buffer &&& BTN_A ≠ 0 ∧
        (update_paddle (read_input s raw)).prev_input &&& BTN_A = 0) := hc
    have hst : (frameStep s raw).ball_state = 0 := by
      show (update_ball (update_paddle (read_input s raw))).ball_state = 0
      unfold update_ball
      rw [if_pos hb]
      unfold ballOnPaddle
      dsimp only
      rw [if_neg hc2]
      exact h0
    constructor
    · rw [hst]
      exact ⟨fun h => absurd h (by omega), fun h => absurd h hc⟩
    · rw [hst]
      intro h
      exact absurd h (by omega)

/-- Witness for C4: a rising A edge at the initial state launches the
ball with velocity (2, -2). -/
theorem launch_rising_edge_witness :
    init_game.ball_state = 0 ∧
    (((frameStep init_game 239).ball_state = 1 ↔
       ((239 % 256) ^^^ 0xFF) &&& BTN_A ≠ 0 ∧ init_game.input_buffer &&& BTN_A = 0) ∧
     ((frameStep init_game 239).ball_state = 1 →
       (frameStep init_game 239).ball_vx = (BALL_SPEED_X : Int) ∧
       (frameStep init_game 239).ball_vy = -(BALL_SPEED_Y : Int))) :=
  ⟨by decide, launch_rising_edge init_game 239 (by decide)⟩

/-- Holding only RIGHT means the sampled gamepad byte is 254: after the
active-low inversion the input buffer is exactly BTN_RIGHT. -/
def holdRight (t : GameState) : GameState := frameStep t 254

/-- One RIGHT-held frame moves the paddle by PADDLE_SPEED only when the
proposed position is strictly below the bound, otherwise it stays. -/
theorem holdRight_paddle_x (s : GameState)
    (h : s.paddle_x ≤ SCREEN_WIDTH - PADDLE_WIDTH) :
    (holdRight s).paddle_x =
      if s.paddle_x + PADDLE_SPEED < SCREEN_WIDTH - PADDLE_WIDTH then
        s.paddle_x + PADDLE_SPEED
      else s.paddle_x := by
  have h104 : s.paddle_x ≤ 104 := h
  have hmod : (s.paddle_x + PADDLE_SPEED) % 256 = s.paddle_x + PADDLE_SPEED :=
    Nat.mod_eq_of_lt (by unfold PADDLE_SPEED; omega)
  show (frameStep s 254).paddle_x = _
  rw [frameStep_paddle_x]
  unfold paddle_step
  dsimp only
  rw [if_neg (show ¬ ((254 % 256 ^^^ 255) &&& BTN_LEFT ≠ 0) by decide),
    if_pos (show (254 % 256 ^^^ 255) &&& BTN_RIGHT ≠ 0 by decide), hmod]

/-- C2 is false on the code: starting from the initial paddle position
52 and holding RIGHT for 26 frames leaves the paddle at 102, while the
claimed formula min(52 + 26*2, 104) gives the bound 104; the strict
comparison in update_paddle rejects the move from 102 on, so the paddle
never rests at SCREEN_WIDTH - PADDLE_WIDTH. -/
theorem paddle_right_counterexample :
    (Nat.iterate holdRight 26 init_game).paddle_x = 102 ∧
    min (init_game.paddle_x + 26 * PADDLE_SPEED) (SCREEN_WIDTH - PADDLE_WIDTH) = 104 ∧
    (102 : Nat) ≠ 104 := by
  refine ⟨by decide, by decide, by decide⟩

/-- The position the RIGHT-move rule actually converges to from x: the
largest multiple-of-PADDLE_SPEED step destination that stays strictly
under SCREEN_WIDTH - PADDLE_WIDTH, which is 102 for even x and 103 for
odd x (or x itself when already at 102 or beyond). -/
def rightCap (x : Nat) : Nat :=
  if SCREEN_WIDTH - PADDLE_WIDTH - PADDLE_SPEED ≤ x then x
  else SCREEN_WIDTH - PADDLE_WIDTH - PADDLE_SPEED + x % 2

/-- C2 (amended): holding only RIGHT for N frames from any paddle
position x satisfying the invariant yields
min (x + N * PADDLE_SPEED) (rightCap x): the paddle advances by
PADDLE_SPEED per frame and comes to rest at 102 (even start) or 103
(odd start), strictly below the bound SCREEN_WIDTH - PADDLE_WIDTH = 104,
because the proposed position is compared strictly against the bound. -/
theorem paddle_right_hold (s : GameState) (N : Nat)
    (h : s.paddle_x ≤ SCREEN_WIDTH - PADDLE_WIDTH) :
    (Nat.iterate holdRight N s).paddle_x =
      min (s.paddle_x + N * PADDLE_SPEED) (rightCap s.paddle_x) := by
  induction N generalizing s with
  | zero =>
    show s.paddle_x = _
    have h104 : s.paddle_x ≤ 104 := h
    unfold rightCap SCREEN_WIDTH PADDLE_WIDTH PADDLE_SPEED
    split_ifs <;> omega
  | succ N ih =>
    have hstep := holdRight_paddle_x s h
    have h104 : s.paddle_x ≤ 104 := h
    have h2 : (holdRight s).paddle_x ≤ SCREEN_WIDTH - PADDLE_WIDTH := by
      rw [hstep]
      unfold SCREEN_WIDTH PADDLE_WIDTH PADDLE_SPEED at *
      split_ifs <;> omega
    have hiter : Nat.iterate holdRight (N + 1) s = Nat.iterate holdRight N (holdRight s) :=
      Function.iterate_succ_apply holdRight N s
    rw [hiter, ih (holdRight s) h2, hstep]
    unfold rightCap SCREEN_WIDTH PADDLE_WIDTH PADDLE_SPEED
    split_ifs <;> omega

/-- Witness for the amended C2 at the initial state and N = 5. -/
theorem paddle_right_hold_witness :
    init_game.paddle_x ≤ SCREEN_WIDTH - PADDLE_WIDTH ∧
    (Nat.iterate holdRight 5 init_game).paddle_x =
      min (init_game.paddle_x + 5 * PADDLE_SPEED) (rightCap init_game.paddle_x) :=
  ⟨by decide, paddle_right_hold init_game 5 (by decide)⟩

/-- C6 (amended): the paddle-collision step responds only when, besides
the band test PADDLE_Y - BALL_SIZE ≤ y < PADDLE_Y + PADDLE_HEIGHT and
the horizontal AABB overlap, the ball's top is strictly above the
paddle top (y < PADDLE_Y); it then repositions the ball to
y = PADDLE_Y - BALL_SIZE - 1, negates vy exactly when vy > 0, and sets
vx to BALL_SPEED_X exactly when vx = 0.  In the lower part of the band
(PADDLE_Y ≤ y) it changes nothing even with full overlap, and it also
changes nothing when the band or overlap test fails. -/
theorem paddle_collision_characterized (s : GameState) :
    (PADDLE_Y - BALL_SIZE ≤ s.ball_y → s.ball_y < PADDLE_Y + PADDLE_HEIGHT →
     s.ball_x + BALL_SIZE > s.paddle_x → s.paddle_x + PADDLE_WIDTH > s.ball_x →
     s.ball_y < PADDLE_Y →
     paddlePhase s =
       { s with ball_y := PADDLE_Y - BALL_SIZE - 1
                ball_vy := if s.ball_vy > 0 then toInt8 (-s.ball_vy) else s.ball_vy
                ball_vx := if s.ball_vx = 0 then (BALL_SPEED_X : Int) else s.ball_vx }) ∧
    (PADDLE_Y ≤ s.ball_y → paddlePhase s = s) ∧
    (¬ (PADDLE_Y - BALL_SIZE ≤ s.ball_y ∧ s.ball_y < PADDLE_Y + PADDLE_HEIGHT) →
      paddlePhase s = s) ∧
    (¬ (s.ball_x + BALL_SIZE > s.paddle_x ∧ s.paddle_x + PADDLE_WIDTH > s.ball_x) →
      paddlePhase s = s) := by
  refine ⟨fun h1 h2 h3 h4 h5 => ?_, fun h5 => ?_, fun hb => ?_, fun ho => ?_⟩
  · unfold paddlePhase
    rw [if_pos ⟨h1, h2⟩, if_pos ⟨h3, h4⟩, if_pos h5]
  · unfold paddlePhase
    by_cases hb2 : PADDLE_Y - BALL_SIZE ≤ s.ball_y ∧ s.ball_y < PADDLE_Y + PADDLE_HEIGHT
    · rw [if_pos hb2]
      by_cases ho2 : s.ball_x + BALL_SIZE > s.paddle_x ∧ s.paddle_x + PADDLE_WIDTH > s.ball_x
      · rw [if_pos ho2, if_neg (show ¬ s.ball_y < PADDLE_Y by omega)]
      · rw [if_neg ho2]
    · rw [if_neg hb2]
  · unfold paddlePhase
    rw [if_neg hb]
  · unfold paddlePhase
    by_cases hb2 : PADDLE_Y - BALL_SIZE ≤ s.ball_y ∧ s.ball_y < PADDLE_Y + PADDLE_HEIGHT
    · rw [if_pos hb2, if_neg ho]
    · rw [if_neg hb2]

/-- Concrete hit state for the amended C6 witness: the ball's top at
y = 113 is inside the band, strictly above the paddle top, and overlaps
the paddle horizontally. -/
def c6aw : GameState :=
  { init_game with ball_state := 1, ball_x := 52, ball_y := 113, ball_vx := 2, ball_vy := 2 }

/-- Witness for the amended C6, using its hit branch at c6aw. -/
theorem paddle_collision_characterized_witness :
    paddlePhase c6aw =
      { c6aw with ball_y := PADDLE_Y - BALL_SIZE - 1
                  ball_vy := if c6aw.ball_vy > 0 then toInt8 (-c6aw.ball_vy) else c6aw.ball_vy
                  ball_vx := if c6aw.ball_vx = 0 then (BALL_SPEED_X : Int) else c6aw.ball_vx } :=
  (paddle_collision_characterized c6aw).1 (by decide) (by decide) (by decide)
    (by decide) (by decide)

/-- A brick passing the scan-loop hit test is active. -/
theorem hitTest_active (bx by1 : Nat) (b : Brick) (h : hitTest bx by1 b = true) :
    b.active = true := by
  simp only [hitTest, Bool.and_eq_true] at h
  exact h.1.1.1.1

/-- When no brick passes the hit test the scan returns none. -/
theorem scanBricks_none_of_no_hit (bx by1 : Nat) (l : List Brick)
    (h : ∀ b ∈ l, hitTest bx by1 b = false) : scanBricks bx by1 l = none := by
  induction l with
  | nil => rfl
  | cons b rest ih =>
    unfold scanBricks
    rw [if_neg (by simp [h b (List.mem_cons_self b rest)]),
      ih (fun x hx => h x (List.mem_cons_of_mem b hx))]
    rfl

/-- The scan never changes the number of bricks. -/
theorem scanBricks_length (bx by1 : Nat) (l l' : List Brick)
    (h : scanBricks bx by1 l = some l') : l'.length = l.length := by
  induction l generalizing l' with
  | nil => exact Option.noConfusion h
  | cons b rest ih =>
    unfold scanBricks at h
    split_ifs at h with hb
    · simp only [Option.some.injEq] at h
      subst h
      rfl
    · cases hsc : scanBricks bx by1 rest with
      | none => rw [hsc] at h; simp at h
      | some r =>
        rw [hsc] at h
        simp only [Option.map_some', Option.some.injEq] at h
        subst h
        simp [ih r hsc]

/-- A successful scan lowers the active count by exactly one. -/
theorem scanBricks_countActive (bx by1 : Nat) (l l' : List Brick)
    (h : scanBricks bx by1 l = some l') : countActive l' + 1 = countActive l := by
  induction l generalizing l' with
  | nil => exact Option.noConfusion h
  | cons b rest ih =>
    unfold scanBricks at h
    split_ifs at h with hb
    · simp only [Option.some.injEq] at h
      subst h
      have hact : b.active = true := hitTest_active bx by1 b hb
      simp [countActive, List.countP_cons, hact]
    · cases hsc : scanBricks bx by1 rest with
      | none => rw [hsc] at h; simp at h
      | some r =>
        rw [hsc] at h
        simp only [Option.map_some', Option.some.injEq] at h
        subst h
        have := ih r hsc
        simp only [countActive, List.countP_cons] at *
        omega

/-- The scan only clears an active flag: every brick of the output has
the position of a brick of the input. -/
theorem scanBricks_pos_preserved (bx by1 : Nat) (l l' : List Brick)
    (h : scanBricks bx by1 l = some l') :
    ∀ b' ∈ l', ∃ b ∈ l, b'.x = b.x ∧ b'.y = b.y := by
  induction l generalizing l' with
  | nil => exact Option.noConfusion h
  | cons b rest ih =>
    unfold scanBricks at h
    split_ifs at h with hb
    · simp only [Option.some.injEq] at h
      subst h
      intro b' hb'
      rcases List.mem_cons.mp hb' with h1 | h1
      · exact ⟨b, List.mem_cons_self b rest, by rw [h1], by rw [h1]⟩
      · exact ⟨b', List.mem_cons_of_mem b h1, rfl, rfl⟩
    · cases hsc : scanBricks bx by1 rest with
      | none => rw [hsc] at h; simp at h
      | some r =>
        rw [hsc] at h
        simp only [Option.map_some', Option.some.injEq] at h
        subst h
        intro b' hb'
        rcases List.mem_cons.mp hb' with h1 | h1
        · exact ⟨b, List.mem_cons_self b rest, by rw [h1], by rw [h1]⟩
        · rcases ih r hsc b' h1 with ⟨c, hc, hcx, hcy⟩
          exact ⟨c, List.mem_cons_of_mem b hc, hcx, hcy⟩

/-- When some brick passes the hit test, the scan deactivates exactly
the first one in index order and returns the rest unchanged. -/
theorem scanBricks_eq_set (bx by1 : Nat) (l : List Brick) (d : Brick)
    (h : l.any (hitTest bx by1) = true) :
    scanBricks bx by1 l =
      some (l.set (l.findIdx (hitTest bx by1))
        { l.getD (l.findIdx (hitTest bx by1)) d with active := false }) := by
  induction l with
  | nil => simp at h
  | cons b rest ih =>
    by_cases hb : hitTest bx by1 b = true
    · unfold scanBricks
      rw [if_pos hb]
      simp [List.findIdx_cons, hb]
    · have h' : rest.any (hitTest bx by1) = true := by
        simp only [List.any_cons, hb, Bool.false_or] at h
        exact h
      unfold scanBricks
      rw [if_neg (by simp [hb]), ih h']
      simp [List.findIdx_cons, hb]

/-- C1: whenever the brick scan runs with some active brick overlapping
the ball rectangle on both axes, exactly the first such brick in
row-major index order is deactivated, vy is negated, score goes up by
one and the active-brick counter goes down by one; every other brick is
left untouched (the result is a single List.set at the first hit
index). -/
theorem brick_hit_first_in_grid_order (s : GameState) (d : Brick)
    (h : s.bricks.any (hitTest s.ball_x s.ball_y) = true)
    (hsc : s.score < 65535)
    (hvy : -128 < s.ball_vy ∧ s.ball_vy < 128)
    (hbl : s.bricks_left = countActive s.bricks)
    (hlen : s.bricks.length = TOTAL_BRICKS) :
    brickScanApply s =
      { s with
        bricks := s.bricks.set (s.bricks.findIdx (hitTest s.ball_x s.ball_y))
          { s.bricks.getD (s.bricks.findIdx (hitTest s.ball_x s.ball_y)) d with
              active := false }
        ball_vy := -s.ball_vy
        score := s.score + 1
        bricks_left := s.bricks_left - 1 } ∧
    countActive (brickScanApply s).bricks + 1 = s.bricks_left ∧
    0 < s.bricks_left := by
  have hset := scanBricks_eq_set s.ball_x s.ball_y s.bricks d h
  have hpos : 0 < countActive s.bricks := by
    rcases List.any_eq_true.mp h with ⟨b, hbmem, hbhit⟩
    exact List.countP_pos_iff.mpr ⟨b, hbmem, hitTest_active _ _ _ hbhit⟩
  have hle : countActive s.bricks ≤ TOTAL_BRICKS := by
    calc countActive s.bricks ≤ s.bricks.length := List.countP_le_length _
    _ = TOTAL_BRICKS := hlen
  have htot : TOTAL_BRICKS = 48 := by decide
  have hcnt := scanBricks_countActive s.ball_x s.ball_y s.bricks _ hset
  have hvy8 : toInt8 (-s.ball_vy) = -s.ball_vy := by
    unfold toInt8
    omega
  have hsc16 : (s.score + 1) % 65536 = s.score + 1 := Nat.mod_eq_of_lt (by omega)
  have hbl8 : (s.bricks_left + 255) % 256 = s.bricks_left - 1 := by omega
  refine ⟨?_, ?_, by omega⟩
  · unfold brickScanApply
    rw [hset]
    dsimp only
    rw [hvy8, hsc16, hbl8]
  · unfold brickScanApply
    rw [hset]
    dsimp only
    rw [hbl]
    exact hcnt

/-- Concrete scan state for the C1 witness: the ball overlaps the
grid-index-0 brick (and only needs some hit to exist). -/
def c1w : GameState :=
  { init_game with ball_state := 1, ball_x := 10, ball_y := 12, ball_vx := 2, ball_vy := -2 }

/-- Witness for C1 at c1w: all hypotheses hold concretely and the
conclusion follows by the theorem. -/
theorem brick_hit_first_in_grid_order_witness :
    c1w.bricks.any (hitTest c1w.ball_x c1w.ball_y) = true ∧
    c1w.score < 65535 ∧
    (brickScanApply c1w =
      { c1w with
        bricks := c1w.bricks.set (c1w.bricks.findIdx (hitTest c1w.ball_x c1w.ball_y))
          { c1w.bricks.getD (c1w.bricks.findIdx (hitTest c1w.ball_x c1w.ball_y)) (mkBrick 0) with
              active := false }
        ball_vy := -c1w.ball_vy
        score := c1w.score + 1
        bricks_left := c1w.bricks_left - 1 } ∧
     countActive (brickScanApply c1w).bricks + 1 = c1w.bricks_left ∧
     0 < c1w.bricks_left) :=
  ⟨by decide, by decide,
    brick_hit_first_in_grid_order c1w (mkBrick 0) (by decide) (by decide) (by decide)
      (by decide) (by decide)⟩

/-- Ball-position facts that hold at every frame boundary while the
ball is Active: x stays in [1, 124], vx is one of the two launch-speed
values, and an odd x (which only the left-wall clamp produces) always
comes with vx = 2. -/
def BallInv (s : GameState) : Prop :=
  1 ≤ s.ball_x ∧ s.ball_x ≤ 124 ∧ (s.ball_vx = 2 ∨ s.ball_vx = -2) ∧
    (s.ball_x % 2 = 1 → s.ball_vx = 2)

/-- Frame-boundary invariant of the game loop. -/
def Inv (s : GameState) : Prop :=
  s.bricks_left = countActive s.bricks ∧
  s.bricks.length = TOTAL_BRICKS ∧
  (∀ b ∈ s.bricks, BRICK_START_Y ≤ b.y ∧ b.y ≤ 45) ∧
  s.paddle_x ≤ SCREEN_WIDTH - PADDLE_WIDTH ∧
  (s.ball_state = 0 ∨ s.ball_state = 1) ∧
  (s.ball_state = 1 → BallInv s)

/-- The paddle-step clamps keep the paddle position within the bound
for any input byte. -/
theorem paddle_step_le (input x : Nat) (h : x ≤ SCREEN_WIDTH - PADDLE_WIDTH) :
    paddle_step input x ≤ SCREEN_WIDTH - PADDLE_WIDTH := by
  unfold paddle_step SCREEN_WIDTH PADDLE_WIDTH PADDLE_SPEED at *
  dsimp only
  split_ifs <;> omega

/-- Wall handling after integration preserves the Active-ball position
facts. -/
theorem wallX_ballInv (x : Nat) (vx : Int) (h1 : 1 ≤ x) (h2 : x ≤ 124)
    (h3 : vx = 2 ∨ vx = -2) (h4 : x % 2 = 1 → vx = 2) :
    1 ≤ (wallX (u8 ((x : Int) + vx)) vx).1 ∧
    (wallX (u8 ((x : Int) + vx)) vx).1 ≤ 124 ∧
    ((wallX (u8 ((x : Int) + vx)) vx).2 = 2 ∨ (wallX (u8 ((x : Int) + vx)) vx).2 = -2) ∧
    ((wallX (u8 ((x : Int) + vx)) vx).1 % 2 = 1 → (wallX (u8 ((x : Int) + vx)) vx).2 = 2) := by
  rcases h3 with h3 | h3
  · subst h3
    have hu : u8 ((x : Int) + 2) = x + 2 := by unfold u8; omega
    rw [hu]
    unfold wallX
    rw [if_neg (by omega)]
    by_cases hr : SCREEN_WIDTH ≤ x + 2 + BALL_SIZE
    · rw [if_pos hr]
      refine ⟨by decide, by decide, Or.inr (by decide), fun hp => absurd hp (by decide)⟩
    · rw [if_neg hr]
      unfold SCREEN_WIDTH BALL_SIZE at hr
      exact ⟨by omega, by omega, Or.inl rfl, fun _ => rfl⟩
  · subst h3
    have hxe : x % 2 = 0 := by
      rcases Nat.mod_two_eq_zero_or_one x with hh | hh
      · exact hh
      · exact absurd (h4 hh) (by decide)
    have hx2 : 2 ≤ x := by omega
    have hu : u8 ((x : Int) + -2) = x - 2 := by unfold u8; omega
    rw [hu]
    unfold wallX
    by_cases h0 : x - 2 = 0
    · rw [if_pos h0]
      exact ⟨by decide, by decide, Or.inl (by decide), fun _ => by decide⟩
    · rw [if_neg h0, if_neg (by unfold SCREEN_WIDTH BALL_SIZE; omega)]
      exact ⟨by omega, by omega, Or.inr rfl, fun hp => by omega⟩

/-- The paddle-collision step leaves the ball's y either unchanged or
at the reposition height. -/
theorem paddlePhase_ball_y_cases (t : GameState) :
    (paddlePhase t).ball_y = t.ball_y ∨
    (paddlePhase t).ball_y = PADDLE_Y - BALL_SIZE - 1 := by
  unfold paddlePhase
  split_ifs <;> simp

/-- The scan-and-apply step preserves the brick bookkeeping facts. -/
theorem brickScanApply_inv (t : GameState)
    (h1 : t.bricks_left = countActive t.bricks)
    (h2 : t.bricks.length = TOTAL_BRICKS)
    (h3 : ∀ b ∈ t.bricks, BRICK_START_Y ≤ b.y ∧ b.y ≤ 45) :
    (brickScanApply t).bricks_left = countActive (brickScanApply t).bricks ∧
    (brickScanApply t).bricks.length = TOTAL_BRICKS ∧
    (∀ b ∈ (brickScanApply t).bricks, BRICK_START_Y ≤ b.y ∧ b.y ≤ 45) := by
  cases hsc : scanBricks t.ball_x t.ball_y t.bricks with
  | none =>
    unfold brickScanApply
    rw [hsc]
    exact ⟨h1, h2, h3⟩
  | some l =>
    unfold brickScanApply
    rw [hsc]
    dsimp only
    have hcnt := scanBricks_countActive _ _ _ _ hsc
    have hlen := scanBricks_length _ _ _ _ hsc
    have hcle : countActive t.bricks ≤ TOTAL_BRICKS := by
      calc countActive t.bricks ≤ t.bricks.length := List.countP_le_length _
      _ = TOTAL_BRICKS := h2
    have htot : TOTAL_BRICKS = 48 := by decide
    refine ⟨by omega, by rw [hlen]; exact h2, ?_⟩
    intro b hb
    rcases scanBricks_pos_preserved _ _ _ _ hsc b hb with ⟨c, hc, hx, hy⟩
    rw [hy]
    exact h3 c hc

/-- The brick phase (with the pre-filter) preserves the brick
bookkeeping facts. -/
theorem brickPhase_inv (t : GameState)
    (h1 : t.bricks_left = countActive t.bricks)
    (h2 : t.bricks.length = TOTAL_BRICKS)
    (h3 : ∀ b ∈ t.bricks, BRICK_START_Y ≤ b.y ∧ b.y ≤ 45) :
    (brickPhase t).bricks_left = countActive (brickPhase t).bricks ∧
    (brickPhase t).bricks.length = TOTAL_BRICKS ∧
    (∀ b ∈ (brickPhase t).bricks, BRICK_START_Y ≤ b.y ∧ b.y ≤ 45) := by
  unfold brickPhase
  split_ifs with hc
  · exact ⟨h1, h2, h3⟩
  · exact brickScanApply_inv t h1 h2 h3

/-- The paddle and brick phases together preserve the frame
invariant for an Active ball that was not lost this frame. -/
theorem afterWalls_inv (t : GameState)
    (h1 : t.bricks_left = countActive t.bricks)
    (h2 : t.bricks.length = TOTAL_BRICKS)
    (h3 : ∀ b ∈ t.bricks, BRICK_START_Y ≤ b.y ∧ b.y ≤ 45)
    (h4 : t.paddle_x ≤ SCREEN_WIDTH - PADDLE_WIDTH)
    (h5 : t.ball_state = 1)
    (h6 : 1 ≤ t.ball_x) (h7 : t.ball_x ≤ 124)
    (h8 : t.ball_vx = 2 ∨ t.ball_vx = -2)
    (h9 : t.ball_x % 2 = 1 → t.ball_vx = 2) :
    Inv (brickPhase (paddlePhase t)) := by
  have hvx0 : t.ball_vx ≠ 0 := by rcases h8 with h | h <;> rw [h] <;> decide
  have hppvx := paddlePhase_ball_vx t hvx0
  have hppbr := paddlePhase_bricks t
  have hppbl := paddlePhase_bricks_left t
  have hbrparts : (paddlePhase t).bricks_left = countActive (paddlePhase t).bricks ∧
      (paddlePhase t).bricks.length = TOTAL_BRICKS ∧
      (∀ b ∈ (paddlePhase t).bricks, BRICK_START_Y ≤ b.y ∧ b.y ≤ 45) := by
    rw [hppbr, hppbl]
    exact ⟨h1, h2, h3⟩
  rcases brickPhase_inv (paddlePhase t) hbrparts.1 hbrparts.2.1 hbrparts.2.2 with ⟨k1, k2, k3⟩
  refine ⟨k1, k2, k3, ?_, ?_, ?_⟩
  · rw [brickPhase_paddle_x, paddlePhase_paddle_x]
    exact h4
  · rw [brickPhase_ball_state, paddlePhase_ball_state, h5]
    exact Or.inr rfl
  · intro _
    refine ⟨?_, ?_, ?_, ?_⟩
    · rw [brickPhase_ball_x, paddlePhase_ball_x]; exact h6
    · rw [brickPhase_ball_x, paddlePhase_ball_x]; exact h7
    · rw [brickPhase_ball_vx, hppvx]; exact h8
    · rw [brickPhase_ball_x, paddlePhase_ball_x, brickPhase_ball_vx, hppvx]; exact h9

/-- update_ball preserves the frame invariant. -/
theorem Inv_update_ball (s : GameState) (h : Inv s) : Inv (update_ball s) := by
  rcases h with ⟨h1, h2, h3, h4, h5, h6⟩
  by_cases hz : s.ball_state = 0
  · unfold update_ball
    rw [if_pos hz]
    unfold ballOnPaddle
    dsimp only
    split_ifs with hc
    · have hmod : (s.paddle_x + (PADDLE_WIDTH - BALL_SIZE) / 2) % 256 =
          s.paddle_x + (PADDLE_WIDTH - BALL_SIZE) / 2 := by
        unfold SCREEN_WIDTH PADDLE_WIDTH at h4
        unfold PADDLE_WIDTH BALL_SIZE
        omega
      refine ⟨h1, h2, h3, h4, Or.inr rfl, fun _ => ⟨?_, ?_, Or.inl rfl, fun _ => rfl⟩⟩
      · show 1 ≤ (s.paddle_x + (PADDLE_WIDTH - BALL_SIZE) / 2) % 256
        rw [hmod]
        unfold PADDLE_WIDTH BALL_SIZE
        omega
      · show (s.paddle_x + (PADDLE_WIDTH - BALL_SIZE) / 2) % 256 ≤ 124
        rw [hmod]
        unfold SCREEN_WIDTH PADDLE_WIDTH at h4
        unfold PADDLE_WIDTH BALL_SIZE
        omega
    · exact ⟨h1, h2, h3, h4, Or.inl hz, fun hh => absurd (hz.symm.trans hh) (by decide)⟩
  · have hA : s.ball_state = 1 := by rcases h5 with h5 | h5; exact absurd h5 hz; exact h5
    rcases h6 hA with ⟨b1, b2, b3, b4⟩
    have hw := wallX_ballInv s.ball_x s.ball_vx b1 b2 b3 b4
    unfold update_ball
    rw [if_neg hz]
    dsimp only
    split_ifs with htop hloss
    · exact afterWalls_inv _ h1 h2 h3 h4 hA hw.1 hw.2.1 hw.2.2.1 hw.2.2.2
    · exact ⟨h1, h2, h3, h4, Or.inl rfl, fun hh => absurd (show (0 : Nat) = 1 from hh) (by decide)⟩
    · exact afterWalls_inv _ h1 h2 h3 h4 hA hw.1 hw.2.1 hw.2.2.1 hw.2.2.2

/-- update_paddle preserves the frame invariant. -/
theorem Inv_update_paddle (s : GameState) (h : Inv s) : Inv (update_paddle s) := by
  rcases h with ⟨h1, h2, h3, h4, h5, h6⟩
  exact ⟨h1, h2, h3, paddle_step_le s.input_buffer s.paddle_x h4, h5, h6⟩

/-- A full frame preserves the frame invariant. -/
theorem Inv_frameStep (s : GameState) (raw : Nat) (h : Inv s) : Inv (frameStep s raw) := by
  have hri : Inv (read_input s raw) := h
  exact Inv_update_ball _ (Inv_update_paddle _ hri)

/-- Every reachable state satisfies the frame invariant. -/
theorem reachable_inv (s : GameState) (h : Reachable s) : Inv s := by
  induction h with
  | init =>
    unfold Inv BallInv
    decide
  | step s raw hs ih => exact Inv_frameStep s raw ih

/-- C7: the invariant that bricks_left equals the number of bricks
with active = true holds after initialization and in every reachable
frame-loop state, being preserved by the paddle and ball updates
(including brick destruction, which decrements the counter exactly when
it clears one active flag). -/
theorem bricks_left_matches_active (s : GameState) (h : Reachable s) :
    s.bricks_left = countActive s.bricks :=
  (reachable_inv s h).1

/-- Witness for C7 at the reachable state one launch frame after
initialization. -/
theorem bricks_left_matches_active_witness :
    (frameStep init_game 239).bricks_left = countActive (frameStep init_game 239).bricks :=
  bricks_left_matches_active (frameStep init_game 239)
    (Reachable.step init_game 239 Reachable.init)

/-- C8: the paddle invariant 0 ≤ paddle_x ≤ SCREEN_WIDTH - PADDLE_WIDTH
holds at initialization, is preserved by update_paddle under every
button combination (the paddle position is a Nat, so the lower bound is
inherent to the model of the uint8 value), and therefore holds in every
reachable frame. -/
theorem paddle_invariant :
    init_game.paddle_x ≤ SCREEN_WIDTH - PADDLE_WIDTH ∧
    (∀ t : GameState, t.paddle_x ≤ SCREEN_WIDTH - PADDLE_WIDTH →
      (update_paddle t).paddle_x ≤ SCREEN_WIDTH - PADDLE_WIDTH) ∧
    (∀ s : GameState, Reachable s → s.paddle_x ≤ SCREEN_WIDTH - PADDLE_WIDTH) :=
  ⟨by decide,
   fun t ht => paddle_step_le t.input_buffer t.paddle_x ht,
   fun s h => (reachable_inv s h).2.2.2.1⟩

/-- Witness for C8 instantiating its universally quantified parts at a
concrete reachable state. -/
theorem paddle_invariant_witness :
    (update_paddle init_game).paddle_x ≤ SCREEN_WIDTH - PADDLE_WIDTH ∧
    (frameStep init_game 254).paddle_x ≤ SCREEN_WIDTH - PADDLE_WIDTH :=
  ⟨paddle_invariant.2.1 init_game (by decide),
   paddle_invariant.2.2 (frameStep init_game 254)
     (Reachable.step init_game 254 Reachable.init)⟩

/-- C5: in every reachable Active frame, if the mathematically
integrated x (old x plus signed vx over the integers) is at most 0, it
is in fact exactly 0 (the only way a reachable state can reach the left
wall), the stored uint8 x becomes 0 so the left-wall branch fires,
negating vx and clamping x to 1, and the right-wall guard
x + BALL_SIZE >= SCREEN_WIDTH is false, so that branch cannot fire. -/
theorem left_wall_bounce (s : GameState) (h : Reachable s) (hA : s.ball_state = 1)
    (hle : (s.ball_x : Int) + s.ball_vx ≤ 0) :
    u8 ((s.ball_x : Int) + s.ball_vx) = 0 ∧
    u8 ((s.ball_x : Int) + s.ball_vx) + BALL_SIZE < SCREEN_WIDTH ∧
    wallX (u8 ((s.ball_x : Int) + s.ball_vx)) s.ball_vx = (1, -s.ball_vx) := by
  rcases (reachable_inv s h).2.2.2.2.2 hA with ⟨hx1, hx2, hvx, hpar⟩
  rcases hvx with hvx | hvx
  · exfalso
    rw [hvx] at hle
    omega
  · have hxe : s.ball_x % 2 = 0 := by
      rcases Nat.mod_two_eq_zero_or_one s.ball_x with hh | hh
      · exact hh
      · rw [hpar hh] at hvx
        exact absurd hvx (by decide)
    have hx2e : s.ball_x = 2 := by
      rw [hvx] at hle
      omega
    rw [hx2e, hvx]
    refine ⟨by decide, by decide, by decide⟩

/-- Modelled comparison bound: the brick phase cannot hit anything when
the ball is at or below the top of the grid band minus the ball size;
concretely the scan finds no overlap once every brick row lies at
y ≤ 45 and the ball is at y ≥ 58. -/
theorem brickPhase_eq_scanApply (t : GameState)
    (hy : ∀ b ∈ t.bricks, BRICK_START_Y ≤ b.y ∧ b.y ≤ 45)
    (hb : BRICK_START_Y ≤ t.ball_y) :
    brickPhase t = brickScanApply t := by
  unfold brickPhase
  split_ifs with hcond
  · have h58 : BRICK_START_Y + BRICK_ROWS * BRICK_SPACING_Y + BRICK_HEIGHT ≤ t.ball_y := by
      rcases hcond with hc | hc
      · omega
      · exact hc
    have h58n : (58 : Nat) ≤ t.ball_y := by
      have : BRICK_START_Y + BRICK_ROWS * BRICK_SPACING_Y + BRICK_HEIGHT = 58 := by decide
      omega
    have hnone : scanBricks t.ball_x t.ball_y t.bricks = none := by
      apply scanBricks_none_of_no_hit
      intro b hbm
      have hyb := (hy b hbm).2
      have hno : ¬ (b.y + BRICK_HEIGHT > t.ball_y) := by
        unfold BRICK_HEIGHT
        omega
      unfold hitTest
      simp [hno]
    unfold brickScanApply
    rw [hnone]
  · rfl

/-- C9 (amended): the vertical pre-filter changes nothing in any frame
whose integrated (wrapped) ball y is at least BRICK_START_Y: for such
states update_ball with the filter equals the always-scanning variant.
(The counterexample shows the two differ on a reachable frame whose
integrated y is 9, inside the filtered-out band where a top-row brick
still overlaps the ball rectangle.) -/
theorem prefilter_equiv (s : GameState)
    (hy : ∀ b ∈ s.bricks, BRICK_START_Y ≤ b.y ∧ b.y ≤ 45)
    (hball : BRICK_START_Y ≤ u8 ((s.ball_y : Int) + s.ball_vy)) :
    update_ball s = update_ball_nofilter s := by
  by_cases hz : s.ball_state = 0
  · unfold update_ball update_ball_nofilter
    rw [if_pos hz, if_pos hz]
  · unfold update_ball update_ball_nofilter
    rw [if_neg hz, if_neg hz]
    dsimp only
    have h8 : ¬ (u8 ((s.ball_y : Int) + s.ball_vy) < 8) := by
      unfold BRICK_START_Y at hball
      omega
    rw [if_neg h8, if_neg h8]
    by_cases hloss : SCREEN_HEIGHT - 2 ≤ u8 ((s.ball_y : Int) + s.ball_vy)
    · rw [if_pos hloss, if_pos hloss]
    · rw [if_neg hloss, if_neg hloss]
      apply brickPhase_eq_scanApply
      · rw [paddlePhase_bricks]
        exact hy
      · rcases paddlePhase_ball_y_cases
          { s with
            ball_x := (wallX (u8 ((s.ball_x : Int) + s.ball_vx)) s.ball_vx).1
            ball_vx := (wallX (u8 ((s.ball_x : Int) + s.ball_vx)) s.ball_vx).2
            ball_y := u8 ((s.ball_y : Int) + s.ball_vy) } with hc | hc
        · rw [hc]
          exact hball
        · rw [hc]
          decide
  
/-- Concrete state for the amended C9 witness: ball well inside the
grid band. -/
def c9aw : GameState :=
  { init_game with ball_state := 1, ball_x := 50, ball_y := 20, ball_vx := 2, ball_vy := 2 }

/-- Witness for the amended C9 at c9aw. -/
theorem prefilter_equiv_witness :
    (∀ b ∈ c9aw.bricks, BRICK_START_Y ≤ b.y ∧ b.y ≤ 45) ∧
    BRICK_START_Y ≤ u8 ((c9aw.ball_y : Int) + c9aw.ball_vy) ∧
    update_ball c9aw = update_ball_nofilter c9aw :=
  ⟨by decide, by decide, prefilter_equiv c9aw (by decide) (by decide)⟩

/-- Decode a run-length encoded input trace into the per-frame list of
raw gamepad bytes. -/
def expandRuns : List (Nat × Nat) → List Nat
  | [] => []
  | (v, n) :: rest => List.replicate n v ++ expandRuns rest

/-- Raw gamepad bytes of the 94-frame play that brings the ball to
the left wall with x = 2, vx = -2. -/

def c5runs : List (Nat × Nat) := [
  (239, 1), (255, 1), (254, 37), (255, 1), (253, 54)]

/-- The reachable state used by the C5 witness. -/
def c5s : GameState := List.foldl frameStep init_game (expandRuns c5runs)

/-- Witness for C5 at the concrete reachable state c5s, whose
integrated x is exactly 0. -/
theorem left_wall_bounce_witness :
    c5s.ball_state = 1 ∧ (c5s.ball_x : Int) + c5s.ball_vx ≤ 0 ∧
    (u8 ((c5s.ball_x : Int) + c5s.ball_vx) = 0 ∧
     u8 ((c5s.ball_x : Int) + c5s.ball_vx) + BALL_SIZE < SCREEN_WIDTH ∧
     wallX (u8 ((c5s.ball_x : Int) + c5s.ball_vx)) c5s.ball_vx = (1, -c5s.ball_vx)) :=
  ⟨by decide, by decide,
    left_wall_bounce c5s (reachable_foldl _ init_game Reachable.init)
      (by decide) (by decide)⟩

/-- Raw gamepad bytes of the 65-frame play before the frame in which
the ball meets the paddle band at y = 115. -/

def c6runs : List (Nat × Nat) := [
  (253, 1), (237, 1), (253, 3), (255, 60)]

/-- The reachable frame-boundary state before the C6 counterexample
frame. -/
def c6pre : GameState := List.foldl frameStep init_game (expandRuns c6runs)

/-- The raw gamepad byte of the C6 counterexample frame. -/
def c6raw : Nat := 255

/-- The state handed to the paddle-collision step inside the C6
counterexample frame: the ball-update input after position integration
and wall handling. -/
def c6mid : GameState :=
  let t := update_paddle (read_input c6pre c6raw)
  { t with ball_x := (wallX (u8 ((t.ball_x : Int) + t.ball_vx)) t.ball_vx).1
           ball_vx := (wallX (u8 ((t.ball_x : Int) + t.ball_vx)) t.ball_vx).2
           ball_y := u8 ((t.ball_y : Int) + t.ball_vy) }

/-- C6 is false on the code: in a reachable Active frame the ball
reaches y = 115, inside the band [PADDLE_Y - BALL_SIZE,
PADDLE_Y + PADDLE_HEIGHT), with full horizontal overlap of the paddle,
yet the paddle-collision step changes nothing (the inner
ball_y < PADDLE_Y test fails), so the ball is not repositioned to
PADDLE_Y - BALL_SIZE - 1 = 111. -/
theorem paddle_band_counterexample :
    Reachable c6pre ∧
    ((update_paddle (read_input c6pre c6raw)).ball_state = 1 ∧
     ¬ (u8 (((update_paddle (read_input c6pre c6raw)).ball_y : Int) +
         (update_paddle (read_input c6pre c6raw)).ball_vy) < 8) ∧
     ¬ (SCREEN_HEIGHT - 2 ≤ u8 (((update_paddle (read_input c6pre c6raw)).ball_y : Int) +
         (update_paddle (read_input c6pre c6raw)).ball_vy)) ∧
     update_ball (update_paddle (read_input c6pre c6raw)) = brickPhase (paddlePhase c6mid) ∧
     (PADDLE_Y - BALL_SIZE ≤ c6mid.ball_y ∧ c6mid.ball_y < PADDLE_Y + PADDLE_HEIGHT) ∧
     (c6mid.ball_x + BALL_SIZE > c6mid.paddle_x ∧ c6mid.paddle_x + PADDLE_WIDTH > c6mid.ball_x) ∧
     paddlePhase c6mid = c6mid ∧
     c6mid.ball_y ≠ PADDLE_Y - BALL_SIZE - 1) :=
  ⟨reachable_foldl _ init_game Reachable.init, by decide⟩

/-- Raw gamepad bytes, frames 0 to 249, of the play
leading to the C9 counterexample frame. -/

def c9runs1 : List (Nat × Nat) := [
  (239, 1), (255, 1), (254, 43), (255, 1), (253, 25), (238, 1), (254, 38), (255, 1), (253, 8), (254, 3),
  (255, 1), (253, 29), (238, 1), (254, 53), (255, 1), (253, 30), (238, 1), (253, 1), (255, 1), (253, 1),
  (254, 9)]

/-- Game state after frame 249 of the C9 play. -/
def c9t1 : GameState :=
  { paddle_x := 58, ball_x := 78, ball_y := 87, ball_vx := 2, ball_vy := -2,
    ball_state := 1, input_buffer := 1, prev_input := 1, score := 5,
    lives := 0, bricks_left := 43, frame_count := 250,
    bricks := [
      ⟨4, 10, 1, true⟩, ⟨20, 10, 1, true⟩, ⟨36, 10, 1, true⟩, ⟨52, 10, 1, true⟩, ⟨68, 10, 1, true⟩, ⟨84, 10, 1, true⟩,
      ⟨100, 10, 1, true⟩, ⟨116, 10, 1, true⟩, ⟨4, 17, 2, true⟩, ⟨20, 17, 2, true⟩, ⟨36, 17, 2, true⟩, ⟨52, 17, 2, true⟩,
      ⟨68, 17, 2, true⟩, ⟨84, 17, 2, true⟩, ⟨100, 17, 2, true⟩, ⟨116, 17, 2, true⟩, ⟨4, 24, 3, true⟩, ⟨20, 24, 3, true⟩,
      ⟨36, 24, 3, true⟩, ⟨52, 24, 3, true⟩, ⟨68, 24, 3, true⟩, ⟨84, 24, 3, true⟩, ⟨100, 24, 3, true⟩, ⟨116, 24, 3, true⟩,
      ⟨4, 31, 4, true⟩, ⟨20, 31, 4, true⟩, ⟨36, 31, 4, true⟩, ⟨52, 31, 4, true⟩, ⟨68, 31, 4, true⟩, ⟨84, 31, 4, true⟩,
      ⟨100, 31, 4, true⟩, ⟨116, 31, 4, false⟩, ⟨4, 38, 5, true⟩, ⟨20, 38, 5, true⟩, ⟨36, 38, 5, true⟩, ⟨52, 38, 5, true⟩,
      ⟨68, 38, 5, true⟩, ⟨84, 38, 5, true⟩, ⟨100, 38, 5, false⟩, ⟨116, 38, 5, false⟩, ⟨4, 45, 6, true⟩, ⟨20, 45, 6, true⟩,
      ⟨36, 45, 6, true⟩, ⟨52, 45, 6, true⟩, ⟨68, 45, 6, true⟩, ⟨84, 45, 6, true⟩, ⟨100, 45, 6, false⟩, ⟨116, 45, 6, false⟩] }

/-- Replay check for frames 0 to 249. -/
theorem c9chunk1 : List.foldl frameStep init_game (expandRuns c9runs1) = c9t1 := by decide

/-- Raw gamepad bytes, frames 250 to 499, of the play
leading to the C9 counterexample frame. -/

def c9runs2 : List (Nat × Nat) := [
  (254, 26), (255, 1), (253, 5), (255, 1), (253, 49), (254, 1), (253, 6), (254, 16), (253, 4), (254, 45),
  (255, 1), (253, 8), (254, 3), (255, 1), (253, 13), (237, 1), (253, 2), (255, 1), (253, 1), (254, 22),
  (255, 1), (253, 2), (254, 2), (255, 1), (254, 7), (255, 1), (253, 29)]

/-- Game state after frame 499 of the C9 play. -/
def c9t2 : GameState :=
  { paddle_x := 44, ball_x := 38, ball_y := 28, ball_vx := -2, ball_vy := 2,
    ball_state := 1, input_buffer := 2, prev_input := 2, score := 31,
    lives := 255, bricks_left := 17, frame_count := 244,
    bricks := [
      ⟨4, 10, 1, true⟩, ⟨20, 10, 1, false⟩, ⟨36, 10, 1, true⟩, ⟨52, 10, 1, false⟩, ⟨68, 10, 1, false⟩, ⟨84, 10, 1, true⟩,
      ⟨100, 10, 1, true⟩, ⟨116, 10, 1, true⟩, ⟨4, 17, 2, false⟩, ⟨20, 17, 2, false⟩, ⟨36, 17, 2, false⟩, ⟨52, 17, 2, false⟩,
      ⟨68, 17, 2, false⟩, ⟨84, 17, 2, false⟩, ⟨100, 17, 2, false⟩, ⟨116, 17, 2, true⟩, ⟨4, 24, 3, false⟩, ⟨20, 24, 3, false⟩,
      ⟨36, 24, 3, false⟩, ⟨52, 24, 3, false⟩, ⟨68, 24, 3, false⟩, ⟨84, 24, 3, false⟩, ⟨100, 24, 3, false⟩, ⟨116, 24, 3, true⟩,
      ⟨4, 31, 4, false⟩, ⟨20, 31, 4, false⟩, ⟨36, 31, 4, false⟩, ⟨52, 31, 4, false⟩, ⟨68, 31, 4, false⟩, ⟨84, 31, 4, false⟩,
      ⟨100, 31, 4, false⟩, ⟨116, 31, 4, false⟩, ⟨4, 38, 5, false⟩, ⟨20, 38, 5, true⟩, ⟨36, 38, 5, true⟩, ⟨52, 38, 5, false⟩,
      ⟨68, 38, 5, true⟩, ⟨84, 38, 5, true⟩, ⟨100, 38, 5, false⟩, ⟨116, 38, 5, false⟩, ⟨4, 45, 6, true⟩, ⟨20, 45, 6, true⟩,
      ⟨36, 45, 6, true⟩, ⟨52, 45, 6, true⟩, ⟨68, 45, 6, true⟩, ⟨84, 45, 6, true⟩, ⟨100, 45, 6, false⟩, ⟨116, 45, 6, false⟩] }

/-- Replay check for frames 250 to 499. -/
theorem c9chunk2 : List.foldl frameStep c9t1 (expandRuns c9runs2) = c9t2 := by decide

/-- Raw gamepad bytes, frames 500 to 616, of the play
leading to the C9 counterexample frame. -/

def c9runs3 : List (Nat × Nat) := [
  (253, 25), (254, 1), (253, 6), (254, 34), (255, 2), (254, 14), (255, 1), (253, 34)]

/-- Game state after frame 616 of the C9 play. -/
def c9t3 : GameState :=
  { paddle_x := 28, ball_x := 52, ball_y := 10, ball_vx := -2, ball_vy := -2,
    ball_state := 1, input_buffer := 2, prev_input := 2, score := 40,
    lives := 255, bricks_left := 8, frame_count := 105,
    bricks := [
      ⟨4, 10, 1, false⟩, ⟨20, 10, 1, false⟩, ⟨36, 10, 1, true⟩, ⟨52, 10, 1, false⟩, ⟨68, 10, 1, false⟩, ⟨84, 10, 1, true⟩,
      ⟨100, 10, 1, false⟩, ⟨116, 10, 1, false⟩, ⟨4, 17, 2, false⟩, ⟨20, 17, 2, false⟩, ⟨36, 17, 2, false⟩, ⟨52, 17, 2, false⟩,
      ⟨68, 17, 2, false⟩, ⟨84, 17, 2, false⟩, ⟨100, 17, 2, false⟩, ⟨116, 17, 2, false⟩, ⟨4, 24, 3, false⟩, ⟨20, 24, 3, false⟩,
      ⟨36, 24, 3, false⟩, ⟨52, 24, 3, false⟩, ⟨68, 24, 3, false⟩, ⟨84, 24, 3, false⟩, ⟨100, 24, 3, false⟩, ⟨116, 24, 3, false⟩,
      ⟨4, 31, 4, false⟩, ⟨20, 31, 4, false⟩, ⟨36, 31, 4, false⟩, ⟨52, 31, 4, false⟩, ⟨68, 31, 4, false⟩, ⟨84, 31, 4, false⟩,
      ⟨100, 31, 4, false⟩, ⟨116, 31, 4, false⟩, ⟨4, 38, 5, false⟩, ⟨20, 38, 5, false⟩, ⟨36, 38, 5, true⟩, ⟨52, 38, 5, false⟩,
      ⟨68, 38, 5, false⟩, ⟨84, 38, 5, false⟩, ⟨100, 38, 5, false⟩, ⟨116, 38, 5, false⟩, ⟨4, 45, 6, true⟩, ⟨20, 45, 6, false⟩,
      ⟨36, 45, 6, true⟩, ⟨52, 45, 6, true⟩, ⟨68, 45, 6, true⟩, ⟨84, 45, 6, true⟩, ⟨100, 45, 6, false⟩, ⟨116, 45, 6, false⟩] }

/-- Replay check for frames 500 to 616. -/
theorem c9chunk3 : List.foldl frameStep c9t2 (expandRuns c9runs3) = c9t3 := by decide

/-- The reachable frame-boundary state before the C9 counterexample
frame. -/
def c9pre : GameState :=
  List.foldl frameStep init_game
    (expandRuns c9runs1 ++ expandRuns c9runs2 ++ expandRuns c9runs3)

/-- The raw gamepad byte of the C9 counterexample frame. -/
def c9raw : Nat := 253

/-- c9pre evaluates to the stored literal state. -/
theorem c9pre_eq : c9pre = c9t3 := by
  unfold c9pre
  rw [List.foldl_append, List.foldl_append, c9chunk1, c9chunk2, c9chunk3]

/-- C9 is false on the code: at a reachable Active frame whose
integrated ball y is 8 (inside the filtered-out band, with an active
top-row brick overlapping the ball rectangle), the ball update with the
vertical pre-filter and the always-scanning variant produce different
states — the filter skips a destruction the full scan performs. -/
theorem prefilter_counterexample :
    Reachable c9pre ∧
    ((update_paddle (read_input c9pre c9raw)).ball_state = 1 ∧
     update_ball (update_paddle (read_input c9pre c9raw)) ≠
       update_ball_nofilter (update_paddle (read_input c9pre c9raw))) :=
  ⟨reachable_foldl _ init_game Reachable.init, by rw [c9pre_eq]; decide⟩

end Breakout

